import Mathlib

/-!
Shallow embedding of three Kibana plugin modules:

1. The wrapRouteHandler combinator of the observability server routes
   (register_annotation_apis.ts): it decodes request parts, dispatches to a
   handler, and maps handler exceptions to HTTP responses and log calls.
2. The useEntitiesListFilters hook, a pure function composing Elasticsearch
   query-DSL bool/should filter groups from three facet selection lists.
3. The onIndexChange callback of the index threshold rule expression editor
   (expression.tsx), which either refreshes field metadata for a non-empty
   index selection or resets the rule parameters to their defaults.

TypeScript values are embedded as plain Lean data: optional fields become
Option, thrown errors become an explicit outcome type, and effects (log
calls, field-lookup calls, handler invocation) are tracked as explicit
components of the result.
-/

section RouterModel

/-- Log levels used by the route handler wrapper: logger.error and
logger.debug are the only two calls in the catch branch. -/
inductive LogLevel where
  | error
  | debug
deriving DecidableEq, Repr

/-- One logger call: the level and the message passed to it. -/
structure LogEntry where
  level : LogLevel
  message : String
deriving DecidableEq, Repr

/-- The payload of a thrown error object: error.output.payload in the
source, with an optional message field. -/
structure ErrPayload where
  message : Option String
deriving DecidableEq, Repr

/-- The output of a thrown error object: error.output in the source, with
optional statusCode and payload fields. -/
structure ErrOutput where
  statusCode : Option Nat
  payload : Option ErrPayload
deriving DecidableEq, Repr

/-- A thrown error as the catch branch inspects it: only the optional
output field is read (error.output may be absent). -/
structure HandlerError where
  output : Option ErrOutput
deriving DecidableEq, Repr

/-- Outcome of invoking the wrapped handler: either a resolved value or a
thrown error. -/
inductive HandlerOutcome (α : Type) where
  | ok (res : α)
  | thrown (e : HandlerError)
deriving DecidableEq, Repr

/-- An HTTP response body: either the raw handler return value (success)
or a JSON error envelope carrying a single message field. -/
inductive ResponseBody (α : Type) where
  | raw (v : α)
  | errorEnvelope (message : String)
deriving DecidableEq, Repr

/-- An HTTP response: status code and body. -/
structure Response (α : Type) where
  statusCode : Nat
  body : ResponseBody α
deriving DecidableEq, Repr

/-- Modelled from the spec: the Kibana core HTTP response factory
(response.badRequest) is host-framework code not under src; per the spec,
error responses are JSON envelopes carrying a message, with status 400 for
a bad request. -/
def Response.badRequest {α : Type} (msg : String) : Response α :=
  { statusCode := 400, body := ResponseBody.errorEnvelope msg }

/-- The response.ok factory: status 200 with the given body. -/
def Response.ok {α : Type} (v : α) : Response α :=
  { statusCode := 200, body := ResponseBody.raw v }

/-- The response.custom factory as used in the catch branch: the resolved
status code with a body holding a single message field. -/
def Response.custom {α : Type} (statusCode : Nat) (msg : String) : Response α :=
  { statusCode := statusCode, body := ResponseBody.errorEnvelope msg }

/-- Resolved status code of a caught error:
error.output?.statusCode ?? 500. -/
def resolvedStatusCode (e : HandlerError) : Nat :=
  (e.output.bind ErrOutput.statusCode).getD 500

/-- Resolved message of a caught error:
error.output?.payload?.message ?? the generic fallback. -/
def resolvedMessage (e : HandlerError) : String :=
  ((e.output.bind ErrOutput.payload).bind ErrPayload.message).getD
    "An internal server error occurred"

/-- Result of one route invocation: the HTTP response, the logger calls
made, and whether the wrapped handler was invoked at all. -/
structure RouteResult (α : Type) where
  response : Response α
  logs : List LogEntry
  handlerInvoked : Bool
deriving DecidableEq, Repr

/-- The wrapRouteHandler combinator. decode stands for rt.decode on the
request parts followed by formatErrors on a Left result (formatErrors is
an imported helper producing a list of error strings); handler stands for
the wrapped handler with the created scoped client folded in. On decode
failure the route returns badRequest with the errors joined by the pipe
character and the handler is never invoked; on handler success it returns
ok with the raw result; on a thrown error it resolves status and message,
logs once at error level for status 500 and above and at debug level
otherwise, and returns a custom response with a message envelope. -/
def wrapRouteHandler {Req Dec α : Type}
    (decode : Req → Except (List String) Dec)
    (handler : Dec → HandlerOutcome α)
    (req : Req) : RouteResult α :=
  match decode req with
  | Except.error errs =>
      { response := Response.badRequest (String.intercalate "|" errs)
        logs := []
        handlerInvoked := false }
  | Except.ok data =>
      match handler data with
      | HandlerOutcome.ok res =>
          { response := Response.ok res
            logs := []
            handlerInvoked := true }
      | HandlerOutcome.thrown e =>
          let statusCode := resolvedStatusCode e
          let errorMessage := resolvedMessage e
          let entry : LogEntry :=
            if statusCode ≥ 500 then
              { level := LogLevel.error, message := errorMessage }
            else
              { level := LogLevel.debug, message := errorMessage }
          { response := Response.custom statusCode errorMessage
            logs := [entry]
            handlerInvoked := true }

end RouterModel

section FilterModel

/-- Source provenance tags of the entity list filter hook. Modelled from
the usage in the source: the tag comparison distinguishes risk,
criticality, and a remaining events case. -/
inductive EntitySourceTag where
  | risk
  | criticality
  | events
deriving DecidableEq, Repr

/-- Elasticsearch query-DSL fragments as the hook builds them: term,
terms and wildcard leaf clauses, bool/should and bool/must_not groups,
and an otherQuery constructor standing for an arbitrary caller-supplied
global query. -/
inductive Query where
  | term (field value : String)
  | terms (field : String) (values : List String)
  | wildcard (field pattern : String)
  | boolShould (should : List Query)
  | boolMustNot (mustNot : List Query)
  | otherQuery (tag : String)

/-- Modelled from the spec: index pattern constant imported from the
common constants module, not under src; its value is irrelevant to the
claims. -/
def RISK_SCORE_INDEX_PATTERN : String := "risk-score.risk-score-*"

/-- Modelled from the spec: index pattern constant imported from the
common constants module, not under src; its value is irrelevant to the
claims. -/
def ASSET_CRITICALITY_INDEX_PATTERN : String := ".asset-criticality.asset-criticality-*"

/-- The getSourceTagFilterQuery helper: risk and criticality tags map to
a wildcard on entity.source, any other tag maps to a bool/must_not over
both index patterns. -/
def getSourceTagFilterQuery (tag : EntitySourceTag) : Query :=
  if tag = EntitySourceTag.risk then
    Query.wildcard "entity.source" RISK_SCORE_INDEX_PATTERN
  else if tag = EntitySourceTag.criticality then
    Query.wildcard "entity.source" ASSET_CRITICALITY_INDEX_PATTERN
  else
    Query.boolMustNot
      [Query.wildcard "entity.source" ASSET_CRITICALITY_INDEX_PATTERN,
       Query.wildcard "entity.source" RISK_SCORE_INDEX_PATTERN]

/-- The useEntitiesListFilters hook body. The ambient hook results are
passed as parameters: enabledEntityTypes from useEntityStoreTypes,
globalQuery from useGlobalFilterQuery, and the EntityTypeToLevelField
mapping together with the RiskScoreFields.unsupported sentinel (both
imported constants not under src) as entityTypeToLevelField and
unsupportedLevelField. Severities and criticalities are embedded as their
string values. Each non-empty selection list contributes one bool/should
group; the lists are concatenated in the source order severity,
criticality, source, and the global query, when present, is pushed at the
end. -/
def useEntitiesListFilters {ET : Type}
    (enabledEntityTypes : List ET)
    (entityTypeToLevelField : ET → String)
    (unsupportedLevelField : String)
    (globalQuery : Option Query)
    (selectedSeverities : List String)
    (selectedCriticalities : List String)
    (selectedSources : List EntitySourceTag) : List Query :=
  let criticalityFilter : List Query :=
    if selectedCriticalities.length ≠ 0 then
      [Query.boolShould
        (selectedCriticalities.map fun value => Query.term "asset.criticality" value)]
    else []
  let sourceFilter : List Query :=
    if selectedSources.length ≠ 0 then
      [Query.boolShould (selectedSources.map fun tag => getSourceTagFilterQuery tag)]
    else []
  let severityFilter : List Query :=
    if selectedSeverities.length ≠ 0 then
      [Query.boolShould
        ((enabledEntityTypes.filter
            fun ty => entityTypeToLevelField ty ≠ unsupportedLevelField).map
          fun ty => Query.terms (entityTypeToLevelField ty) selectedSeverities)]
    else []
  let filterList := severityFilter ++ criticalityFilter ++ sourceFilter
  match globalQuery with
  | some q => filterList ++ [q]
  | none => filterList

/-- Equivalence of leaf clauses up to reordering of the values inside a
terms clause; all other clauses must be equal. -/
def clauseEquiv : Query → Query → Prop
  | Query.terms f vs, Query.terms g ws => f = g ∧ vs.Perm ws
  | q, q' => q = q'

/-- Equivalence of bool/should groups up to the multiset of their
clauses: the clause lists agree up to a permutation followed by pointwise
clauseEquiv; queries that are not bool/should groups must be equal. -/
def shouldGroupEquiv : Query → Query → Prop
  | Query.boolShould l, Query.boolShould l' =>
      ∃ mid, l.Perm mid ∧ List.Forall₂ clauseEquiv mid l'
  | q, q' => q = q'

end FilterModel

section ExpressionModel

/-- Modelled from the spec: COMPARATORS.GREATER_THAN from the alerting
comparators package, not under src; the claims depend only on
DEFAULT_VALUES referencing it, not on its value. -/
def COMPARATORS_GREATER_THAN : String := ">"

/-- Shape of the DEFAULT_VALUES constant of the expression editor. -/
structure DefaultValues where
  AGGREGATION_TYPE : String
  TERM_SIZE : Nat
  THRESHOLD_COMPARATOR : String
  TIME_WINDOW_SIZE : Nat
  TIME_WINDOW_UNIT : String
  THRESHOLD : List Int
  GROUP_BY : String
deriving DecidableEq, Repr

/-- The DEFAULT_VALUES constant of expression.tsx. -/
def DEFAULT_VALUES : DefaultValues :=
  { AGGREGATION_TYPE := "count"
    TERM_SIZE := 5
    THRESHOLD_COMPARATOR := COMPARATORS_GREATER_THAN
    TIME_WINDOW_SIZE := 5
    TIME_WINDOW_UNIT := "m"
    THRESHOLD := [1000]
    GROUP_BY := "all" }

/-- Field metadata returned by the getFields lookup, as declared in
expression.tsx. -/
structure EsField where
  name : String
  type : String
  normalizedType : String
  searchable : Bool
  aggregatable : Bool
deriving DecidableEq, Repr

/-- The rule parameters record destructured by the component. Fields that
may be undefined before the editor initialises them are Option; index is
kept as the normalised string array. -/
structure RuleParams where
  index : List String
  timeField : Option String
  aggType : Option String
  aggField : Option String
  groupBy : Option String
  termSize : Option Nat
  termField : Option String
  thresholdComparator : Option String
  threshold : Option (List Int)
  timeWindowSize : Option Nat
  timeWindowUnit : Option String
  filterKuery : Option String
deriving DecidableEq, Repr

/-- The component state visible to the onIndexChange callback: the rule
parameters held by the host framework and the esFields local state. -/
structure ComponentState where
  ruleParams : RuleParams
  esFields : Option (List EsField)
deriving DecidableEq, Repr

/-- The onIndexChange callback. getFields is the asynchronous
field-lookup call, modelled as a pure oracle; the second component of the
result records the list of getFields calls made (each identified by the
indices passed). The callback first stores the new indices via
setRuleParams; when the index list is empty it then replaces the rule
parameters wholesale, resetting the expression fields to DEFAULT_VALUES
and timeField to the empty string, without any field lookup; otherwise it
performs the lookup and stores the result in esFields. -/
def onIndexChange (getFields : List String → List EsField)
    (state : ComponentState) (indices : List String) :
    ComponentState × List (List String) :=
  let afterSetIndex : ComponentState :=
    { state with ruleParams := { state.ruleParams with index := indices } }
  if indices.length = 0 then
    ({ afterSetIndex with
        ruleParams :=
          { state.ruleParams with
            index := indices
            aggType := some DEFAULT_VALUES.AGGREGATION_TYPE
            termSize := some DEFAULT_VALUES.TERM_SIZE
            thresholdComparator := some DEFAULT_VALUES.THRESHOLD_COMPARATOR
            timeWindowSize := some DEFAULT_VALUES.TIME_WINDOW_SIZE
            timeWindowUnit := some DEFAULT_VALUES.TIME_WINDOW_UNIT
            groupBy := some DEFAULT_VALUES.GROUP_BY
            threshold := some DEFAULT_VALUES.THRESHOLD
            timeField := some "" } },
      [])
  else
    ({ afterSetIndex with esFields := some (getFields indices) }, [indices])

/-- A rule parameters record with every optional field unset, used as a
concrete starting point in witnesses. -/
def emptyRuleParams : RuleParams :=
  { index := []
    timeField := none
    aggType := none
    aggField := none
    groupBy := none
    termSize := none
    termField := none
    thresholdComparator := none
    threshold := none
    timeWindowSize := none
    timeWindowUnit := none
    filterKuery := none }

end ExpressionModel

section Fixtures

/-- A decoder that always fails with two validation errors, used as a
concrete input in witnesses. -/
def decodeFail : Unit → Except (List String) Unit :=
  fun _ => Except.error ["no body", "no query"]

/-- A decoder that always succeeds, used as a concrete input in
witnesses. -/
def decodeOk : Unit → Except (List String) Unit :=
  fun _ => Except.ok ()

/-- A handler that resolves with the unit value, used as a concrete input
in witnesses. -/
def handlerOkUnit : Unit → HandlerOutcome Unit :=
  fun _ => HandlerOutcome.ok ()

/-- A handler that throws the given error, used as a concrete input in
witnesses. -/
def handlerThrow (e : HandlerError) : Unit → HandlerOutcome Unit :=
  fun _ => HandlerOutcome.thrown e

/-- A concrete error output with status 404 and a message. -/
def out404 : ErrOutput :=
  { statusCode := some 404, payload := some { message := some "not found" } }

/-- A concrete thrown error carrying out404. -/
def err404 : HandlerError := { output := some out404 }

/-- A concrete thrown error with no output field at all. -/
def errBare : HandlerError := { output := none }

end Fixtures

section RouterTheorems

/-- C1: when decoding of the request parts fails, wrapRouteHandler returns
a 400 badRequest response whose body is the list of validation errors
joined with the pipe character, makes no log call, never invokes the
wrapped handler (so no client call is made), and the result does not
depend on the handler at all. -/
theorem wrapRouteHandler_decode_failure {Req Dec α : Type}
    (decode : Req → Except (List String) Dec)
    (handler handler₂ : Dec → HandlerOutcome α)
    (req : Req) (errs : List String)
    (h : decode req = Except.error errs) :
    wrapRouteHandler decode handler req =
      { response :=
          { statusCode := 400
            body := ResponseBody.errorEnvelope (String.intercalate "|" errs) }
        logs := []
        handlerInvoked := false }
    ∧ wrapRouteHandler decode handler req = wrapRouteHandler decode handler₂ req := by
  constructor <;> simp [wrapRouteHandler, h, Response.badRequest]

/-- Witness for C1 at a concrete failing decode. -/
theorem wrapRouteHandler_decode_failure_witness :
    decodeFail () = Except.error ["no body", "no query"]
    ∧ (wrapRouteHandler decodeFail handlerOkUnit () =
        { response :=
            { statusCode := 400
              body := ResponseBody.errorEnvelope
                (String.intercalate "|" ["no body", "no query"]) }
          logs := []
          handlerInvoked := false }
      ∧ wrapRouteHandler decodeFail handlerOkUnit () =
          wrapRouteHandler decodeFail (handlerThrow errBare) ()) :=
  ⟨rfl,
   wrapRouteHandler_decode_failure decodeFail handlerOkUnit (handlerThrow errBare)
     () ["no body", "no query"] rfl⟩

/-- C2: when the wrapped handler throws an error whose output carries
status code 404 and a payload message, the response has status code 404
and its body is an envelope carrying that message. -/
theorem wrapRouteHandler_404 {Req Dec α : Type}
    (decode : Req → Except (List String) Dec)
    (handler : Dec → HandlerOutcome α)
    (req : Req) (d : Dec) (e : HandlerError) (o : ErrOutput) (m : String)
    (hd : decode req = Except.ok d)
    (hh : handler d = HandlerOutcome.thrown e)
    (ho : e.output = some o)
    (hs : o.statusCode = some 404)
    (hm : o.payload.bind ErrPayload.message = some m) :
    (wrapRouteHandler decode handler req).response =
      { statusCode := 404, body := ResponseBody.errorEnvelope m } := by
  simp [wrapRouteHandler, hd, hh, Response.custom, resolvedStatusCode,
    resolvedMessage, ho, hs, hm]

/-- Witness for C2 at a concrete 404 error. -/
theorem wrapRouteHandler_404_witness :
    decodeOk () = Except.ok ()
    ∧ handlerThrow err404 () = HandlerOutcome.thrown err404
    ∧ err404.output = some out404
    ∧ out404.statusCode = some 404
    ∧ out404.payload.bind ErrPayload.message = some "not found"
    ∧ (wrapRouteHandler decodeOk (handlerThrow err404) ()).response =
        { statusCode := 404, body := ResponseBody.errorEnvelope "not found" } :=
  ⟨rfl, rfl, rfl, rfl, rfl,
   wrapRouteHandler_404 decodeOk (handlerThrow err404) () () err404 out404
     "not found" rfl rfl rfl rfl rfl⟩

/-- C3: for every error thrown by the wrapped handler, the response
status code is the statusCode attached to the error output when present
and 500 otherwise, and the response message is the payload message when
present and the generic fallback otherwise. -/
theorem wrapRouteHandler_error_status_message {Req Dec α : Type}
    (decode : Req → Except (List String) Dec)
    (handler : Dec → HandlerOutcome α)
    (req : Req) (d : Dec) (e : HandlerError)
    (hd : decode req = Except.ok d)
    (hh : handler d = HandlerOutcome.thrown e) :
    (∀ o c, e.output = some o → o.statusCode = some c →
        (wrapRouteHandler decode handler req).response.statusCode = c)
    ∧ (e.output.bind ErrOutput.statusCode = none →
        (wrapRouteHandler decode handler req).response.statusCode = 500)
    ∧ (∀ m, (e.output.bind ErrOutput.payload).bind ErrPayload.message = some m →
        (wrapRouteHandler decode handler req).response.body =
          ResponseBody.errorEnvelope m)
    ∧ ((e.output.bind ErrOutput.payload).bind ErrPayload.message = none →
        (wrapRouteHandler decode handler req).response.body =
          ResponseBody.errorEnvelope "An internal server error occurred") := by
  refine ⟨?_, ?_, ?_, ?_⟩
  · intro o c ho hc
    simp [wrapRouteHandler, hd, hh, Response.custom, resolvedStatusCode, ho, hc]
  · intro hn
    simp [wrapRouteHandler, hd, hh, Response.custom, resolvedStatusCode, hn]
  · intro m hm
    simp [wrapRouteHandler, hd, hh, Response.custom, resolvedMessage, hm]
  · intro hn
    simp [wrapRouteHandler, hd, hh, Response.custom, resolvedMessage, hn]

/-- Witness for C3 at a concrete error with no output field: status 500
and the generic fallback message. -/
theorem wrapRouteHandler_error_status_message_witness :
    decodeOk () = Except.ok ()
    ∧ handlerThrow errBare () = HandlerOutcome.thrown errBare
    ∧ ((∀ o c, errBare.output = some o → o.statusCode = some c →
          (wrapRouteHandler decodeOk (handlerThrow errBare) ()).response.statusCode = c)
      ∧ (errBare.output.bind ErrOutput.statusCode = none →
          (wrapRouteHandler decodeOk (handlerThrow errBare) ()).response.statusCode = 500)
      ∧ (∀ m, (errBare.output.bind ErrOutput.payload).bind ErrPayload.message = some m →
          (wrapRouteHandler decodeOk (handlerThrow errBare) ()).response.body =
            ResponseBody.errorEnvelope m)
      ∧ ((errBare.output.bind ErrOutput.payload).bind ErrPayload.message = none →
          (wrapRouteHandler decodeOk (handlerThrow errBare) ()).response.body =
            ResponseBody.errorEnvelope "An internal server error occurred")) :=
  ⟨rfl, rfl,
   wrapRouteHandler_error_status_message decodeOk (handlerThrow errBare) () ()
     errBare rfl rfl⟩

/-- C6: for every request, the response is either an error envelope
carrying a single message (decode failure with the joined errors, or a
handler exception) or, on handler success, exactly the raw handler return
value with status 200. -/
theorem wrapRouteHandler_response_shape {Req Dec α : Type}
    (decode : Req → Except (List String) Dec)
    (handler : Dec → HandlerOutcome α) (req : Req) :
    (∃ errs, decode req = Except.error errs ∧
        (wrapRouteHandler decode handler req).response =
          { statusCode := 400
            body := ResponseBody.errorEnvelope (String.intercalate "|" errs) })
    ∨ (∃ d e, decode req = Except.ok d ∧ handler d = HandlerOutcome.thrown e ∧
        ∃ m, (wrapRouteHandler decode handler req).response.body =
          ResponseBody.errorEnvelope m)
    ∨ (∃ d r, decode req = Except.ok d ∧ handler d = HandlerOutcome.ok r ∧
        (wrapRouteHandler decode handler req).response =
          { statusCode := 200, body := ResponseBody.raw r }) := by
  cases hd : decode req with
  | error errs =>
      exact Or.inl ⟨errs, rfl, by simp [wrapRouteHandler, hd, Response.badRequest]⟩
  | ok d =>
      cases hh : handler d with
      | thrown e =>
          exact Or.inr (Or.inl ⟨d, e, rfl, hh,
            resolvedMessage e, by simp [wrapRouteHandler, hd, hh, Response.custom]⟩)
      | ok r =>
          exact Or.inr (Or.inr ⟨d, r, rfl, hh,
            by simp [wrapRouteHandler, hd, hh, Response.ok]⟩)

/-- C7: for every error thrown by the wrapped handler, exactly one log
call is made, carrying the resolved error message, at error level when
the resolved status code is at least 500 and at debug level otherwise. -/
theorem wrapRouteHandler_logging {Req Dec α : Type}
    (decode : Req → Except (List String) Dec)
    (handler : Dec → HandlerOutcome α)
    (req : Req) (d : Dec) (e : HandlerError)
    (hd : decode req = Except.ok d)
    (hh : handler d = HandlerOutcome.thrown e) :
    (wrapRouteHandler decode handler req).logs =
      [{ level := if resolvedStatusCode e ≥ 500 then LogLevel.error else LogLevel.debug
         message := resolvedMessage e }]
    ∧ ((wrapRouteHandler decode handler req).logs.map LogEntry.level = [LogLevel.error]
        ↔ resolvedStatusCode e ≥ 500) := by
  constructor
  · simp [wrapRouteHandler, hd, hh]
    split <;> simp
  · simp [wrapRouteHandler, hd, hh]
    split <;> simp_all

/-- Witness for C7 at a concrete error with no output field: resolved
status 500, so a single error-level log call is made. -/
theorem wrapRouteHandler_logging_witness :
    decodeOk () = Except.ok ()
    ∧ handlerThrow errBare () = HandlerOutcome.thrown errBare
    ∧ ((wrapRouteHandler decodeOk (handlerThrow errBare) ()).logs =
        [{ level := if resolvedStatusCode errBare ≥ 500 then LogLevel.error else LogLevel.debug
           message := resolvedMessage errBare }]
      ∧ ((wrapRouteHandler decodeOk (handlerThrow errBare) ()).logs.map LogEntry.level
           = [LogLevel.error] ↔ resolvedStatusCode errBare ≥ 500)) :=
  ⟨rfl, rfl,
   wrapRouteHandler_logging decodeOk (handlerThrow errBare) () () errBare rfl rfl⟩

end RouterTheorems

section FilterTheorems

/-- A permutation relates empty lists to empty lists. -/
theorem perm_eq_nil_iff {γ : Type} {l l' : List γ} (h : List.Perm l l') :
    l = [] ↔ l' = [] := by
  constructor
  · intro hl
    subst hl
    exact List.length_eq_zero.mp h.length_eq.symm
  · intro hl
    subst hl
    exact List.length_eq_zero.mp h.length_eq

/-- clauseEquiv is reflexive. -/
theorem clauseEquiv_refl (q : Query) : clauseEquiv q q := by
  cases q <;> first | exact ⟨rfl, List.Perm.refl _⟩ | rfl

/-- Pointwise clauseEquiv of a list with itself. -/
theorem forall₂_clauseEquiv_refl (l : List Query) : List.Forall₂ clauseEquiv l l := by
  induction l with
  | nil => exact List.Forall₂.nil
  | cons q l ih => exact List.Forall₂.cons (clauseEquiv_refl q) ih

/-- shouldGroupEquiv is reflexive. -/
theorem shouldGroupEquiv_refl (q : Query) : shouldGroupEquiv q q := by
  cases q <;>
    first
      | exact ⟨_, List.Perm.refl _, forall₂_clauseEquiv_refl _⟩
      | rfl

/-- Pointwise shouldGroupEquiv of a list with itself. -/
theorem forall₂_shouldGroupEquiv_refl (l : List Query) :
    List.Forall₂ shouldGroupEquiv l l := by
  induction l with
  | nil => exact List.Forall₂.nil
  | cons q l ih => exact List.Forall₂.cons (shouldGroupEquiv_refl q) ih

/-- Mapping a clause constructor over permuted lists yields bool/should
groups equivalent up to the clause multiset. -/
theorem shouldGroupEquiv_map_perm {γ : Type} (f : γ → Query) {l l' : List γ}
    (h : List.Perm l l') :
    shouldGroupEquiv (Query.boolShould (l.map f)) (Query.boolShould (l'.map f)) :=
  ⟨l'.map f, h.map f, forall₂_clauseEquiv_refl _⟩

/-- Terms clauses over the same fields with permuted value lists are
pointwise clauseEquiv. -/
theorem forall₂_terms_map {ET : Type} (lvl : ET → String) {sevs sevs' : List String}
    (hs : List.Perm sevs sevs') (l : List ET) :
    List.Forall₂ clauseEquiv (l.map fun ty => Query.terms (lvl ty) sevs)
      (l.map fun ty => Query.terms (lvl ty) sevs') := by
  induction l with
  | nil => exact List.Forall₂.nil
  | cons a l ih => exact List.Forall₂.cons ⟨rfl, hs⟩ ih

/-- The severity groups built from permuted severity lists are equivalent
up to the clause multiset. -/
theorem shouldGroupEquiv_terms_perm {ET : Type} (lvl : ET → String)
    {sevs sevs' : List String} (hs : List.Perm sevs sevs') (l : List ET) :
    shouldGroupEquiv
      (Query.boolShould (l.map fun ty => Query.terms (lvl ty) sevs))
      (Query.boolShould (l.map fun ty => Query.terms (lvl ty) sevs')) :=
  ⟨l.map fun ty => Query.terms (lvl ty) sevs, List.Perm.refl _,
   forall₂_terms_map lvl hs l⟩

/-- Singleton groups hidden behind matching emptiness conditions are
pointwise equivalent. -/
theorem forall₂_if_group {p q : Prop} [Decidable p] [Decidable q] (hpq : p ↔ q)
    {a b : Query} (hab : shouldGroupEquiv a b) :
    List.Forall₂ shouldGroupEquiv (if p then [] else [a]) (if q then [] else [b]) := by
  by_cases h : p
  · rw [if_pos h, if_pos (hpq.mp h)]
    exact List.Forall₂.nil
  · rw [if_neg h, if_neg fun hh => h (hpq.mpr hh)]
    exact List.Forall₂.cons hab List.Forall₂.nil

/-- Structure of the hook output: one bool/should group per non-empty
selection list, in the order severity, criticality, source, followed by
the optional global query. -/
theorem useEntitiesListFilters_eq {ET : Type}
    (ets : List ET) (lvl : ET → String) (u : String) (g : Option Query)
    (sevs crits : List String) (srcs : List EntitySourceTag) :
    useEntitiesListFilters ets lvl u g sevs crits srcs =
      (if sevs = [] then [] else
        [Query.boolShould ((ets.filter fun ty => lvl ty ≠ u).map
          fun ty => Query.terms (lvl ty) sevs)])
      ++ (if crits = [] then [] else
        [Query.boolShould (crits.map fun v => Query.term "asset.criticality" v)])
      ++ (if srcs = [] then [] else
        [Query.boolShould (srcs.map fun tag => getSourceTagFilterQuery tag)])
      ++ g.toList := by
  cases g <;> cases sevs <;> cases crits <;> cases srcs <;>
    simp [useEntitiesListFilters, Option.toList]

/-- C4: the hook output contains exactly one bool/should clause group for
each non-empty selection list and none for an empty one, and reordering
the elements inside each selection list changes neither which groups
appear nor their contents up to the multiset of elements. -/
theorem useEntitiesListFilters_group_structure {ET : Type}
    (ets : List ET) (lvl : ET → String) (u : String) (g : Option Query)
    (sevs sevs' crits crits' : List String) (srcs srcs' : List EntitySourceTag)
    (hs : List.Perm sevs sevs') (hc : List.Perm crits crits')
    (hr : List.Perm srcs srcs') :
    (useEntitiesListFilters ets lvl u g sevs crits srcs =
      (if sevs = [] then [] else
        [Query.boolShould ((ets.filter fun ty => lvl ty ≠ u).map
          fun ty => Query.terms (lvl ty) sevs)])
      ++ (if crits = [] then [] else
        [Query.boolShould (crits.map fun v => Query.term "asset.criticality" v)])
      ++ (if srcs = [] then [] else
        [Query.boolShould (srcs.map fun tag => getSourceTagFilterQuery tag)])
      ++ g.toList)
    ∧ List.Forall₂ shouldGroupEquiv
        (useEntitiesListFilters ets lvl u g sevs crits srcs)
        (useEntitiesListFilters ets lvl u g sevs' crits' srcs') := by
  refine ⟨useEntitiesListFilters_eq ets lvl u g sevs crits srcs, ?_⟩
  rw [useEntitiesListFilters_eq ets lvl u g sevs crits srcs,
      useEntitiesListFilters_eq ets lvl u g sevs' crits' srcs']
  exact List.rel_append
    (List.rel_append
      (List.rel_append
        (forall₂_if_group (perm_eq_nil_iff hs) (shouldGroupEquiv_terms_perm lvl hs _))
        (forall₂_if_group (perm_eq_nil_iff hc)
          (shouldGroupEquiv_map_perm (fun v => Query.term "asset.criticality" v) hc)))
      (forall₂_if_group (perm_eq_nil_iff hr)
        (shouldGroupEquiv_map_perm (fun tag => getSourceTagFilterQuery tag) hr)))
    (forall₂_shouldGroupEquiv_refl g.toList)

/-- Witness for C4 at concrete selection lists and their reorderings. -/
theorem useEntitiesListFilters_group_structure_witness :
    List.Perm ["High", "Low"] ["Low", "High"]
    ∧ List.Perm ["extreme"] ["extreme"]
    ∧ List.Perm [EntitySourceTag.risk, EntitySourceTag.events]
        [EntitySourceTag.events, EntitySourceTag.risk]
    ∧ ((useEntitiesListFilters ["host", "user"] (fun t => t) "unsupported" none
          ["High", "Low"] ["extreme"] [EntitySourceTag.risk, EntitySourceTag.events] =
        (if (["High", "Low"] : List String) = [] then [] else
          [Query.boolShould (((["host", "user"].filter
              fun ty => (fun t => t) ty ≠ "unsupported")).map
            fun ty => Query.terms ((fun t => t) ty) ["High", "Low"])])
        ++ (if (["extreme"] : List String) = [] then [] else
          [Query.boolShould (["extreme"].map fun v => Query.term "asset.criticality" v)])
        ++ (if ([EntitySourceTag.risk, EntitySourceTag.events] : List EntitySourceTag) = []
            then [] else
          [Query.boolShould ([EntitySourceTag.risk, EntitySourceTag.events].map
            fun tag => getSourceTagFilterQuery tag)])
        ++ (none : Option Query).toList)
      ∧ List.Forall₂ shouldGroupEquiv
          (useEntitiesListFilters ["host", "user"] (fun t => t) "unsupported" none
            ["High", "Low"] ["extreme"] [EntitySourceTag.risk, EntitySourceTag.events])
          (useEntitiesListFilters ["host", "user"] (fun t => t) "unsupported" none
            ["Low", "High"] ["extreme"] [EntitySourceTag.events, EntitySourceTag.risk])) :=
  ⟨by decide, by decide, by decide,
   useEntitiesListFilters_group_structure ["host", "user"] (fun t => t) "unsupported" none
     ["High", "Low"] ["Low", "High"] ["extreme"] ["extreme"]
     [EntitySourceTag.risk, EntitySourceTag.events]
     [EntitySourceTag.events, EntitySourceTag.risk]
     (by decide) (by decide) (by decide)⟩

/-- C5: with all three selection lists empty and no global query, the
hook returns the empty filter list. -/
theorem useEntitiesListFilters_empty {ET : Type}
    (ets : List ET) (lvl : ET → String) (u : String) :
    useEntitiesListFilters ets lvl u none [] [] [] = [] := by
  simp [useEntitiesListFilters]

/-- C10: with a non-empty severity selection, the output starts with one
bool/should group holding exactly one terms clause per enabled entity
type whose level field differs from the unsupported sentinel, each clause
matching the selected severities; with no supported enabled type the
group is still emitted with an empty should list. -/
theorem useEntitiesListFilters_severity_group {ET : Type}
    (ets : List ET) (lvl : ET → String) (u : String) (g : Option Query)
    (sevs crits : List String) (srcs : List EntitySourceTag)
    (hs : sevs ≠ []) :
    useEntitiesListFilters ets lvl u g sevs crits srcs =
      Query.boolShould ((ets.filter fun ty => lvl ty ≠ u).map
          fun ty => Query.terms (lvl ty) sevs)
        :: ((if crits = [] then [] else
              [Query.boolShould (crits.map fun v => Query.term "asset.criticality" v)])
            ++ (if srcs = [] then [] else
              [Query.boolShould (srcs.map fun tag => getSourceTagFilterQuery tag)])
            ++ g.toList) := by
  rw [useEntitiesListFilters_eq, if_neg hs]
  simp

/-- Witness for C10 with one supported and one unsupported enabled entity
type. -/
theorem useEntitiesListFilters_severity_group_witness :
    (["High"] ≠ ([] : List String))
    ∧ useEntitiesListFilters ["host.risk", "unsupported"] (fun t => t) "unsupported" none
        ["High"] [] [] =
      [Query.boolShould [Query.terms "host.risk" ["High"]]] :=
  ⟨by decide,
   by rw [useEntitiesListFilters_severity_group ["host.risk", "unsupported"] (fun t => t)
       "unsupported" none ["High"] [] [] (by decide)]
      rfl⟩

end FilterTheorems

section ExpressionTheorems

/-- C8 counterexample: an index selection with the empty index list makes
no getFields call and does not store a lookup result in esFields, so not
every index selection triggers a field lookup. -/
theorem onIndexChange_empty_no_lookup_cex :
    (onIndexChange (fun _ => []) { ruleParams := emptyRuleParams, esFields := none } []).2 = []
    ∧ (onIndexChange (fun _ => [])
        { ruleParams := emptyRuleParams, esFields := none } []).1.esFields ≠ some [] := by
  decide

/-- C8 amended: every non-empty index selection triggers exactly one
getFields call over the selected indices and stores its result in the
esFields local state, with the new indices recorded in the rule
parameters. -/
theorem onIndexChange_nonempty_refresh (getFields : List String → List EsField)
    (state : ComponentState) (indices : List String) (h : indices ≠ []) :
    onIndexChange getFields state indices =
      ({ state with
          ruleParams := { state.ruleParams with index := indices }
          esFields := some (getFields indices) },
        [indices]) := by
  cases indices with
  | nil => exact absurd rfl h
  | cons a rest => simp [onIndexChange]

/-- Witness for the amended C8 at a concrete one-element selection. -/
theorem onIndexChange_nonempty_refresh_witness :
    (["idx-1"] ≠ ([] : List String))
    ∧ onIndexChange (fun _ => []) { ruleParams := emptyRuleParams, esFields := none }
        ["idx-1"] =
      ({ ruleParams := { emptyRuleParams with index := ["idx-1"] }, esFields := some [] },
        [["idx-1"]]) :=
  ⟨by decide,
   by rw [onIndexChange_nonempty_refresh (fun _ => [])
       { ruleParams := emptyRuleParams, esFields := none } ["idx-1"] (by decide)]⟩

/-- C9: an empty index selection performs no field lookup and resets
aggType, termSize, thresholdComparator, timeWindowSize, timeWindowUnit,
groupBy and threshold to their DEFAULT_VALUES entries and timeField to
the empty string, leaving every other rule parameter (index aside) and
the esFields state unchanged. -/
theorem onIndexChange_empty_resets (getFields : List String → List EsField)
    (state : ComponentState) :
    onIndexChange getFields state [] =
      ({ state with
          ruleParams :=
            { state.ruleParams with
              index := []
              aggType := some DEFAULT_VALUES.AGGREGATION_TYPE
              termSize := some DEFAULT_VALUES.TERM_SIZE
              thresholdComparator := some DEFAULT_VALUES.THRESHOLD_COMPARATOR
              timeWindowSize := some DEFAULT_VALUES.TIME_WINDOW_SIZE
              timeWindowUnit := some DEFAULT_VALUES.TIME_WINDOW_UNIT
              groupBy := some DEFAULT_VALUES.GROUP_BY
              threshold := some DEFAULT_VALUES.THRESHOLD
              timeField := some "" } },
        []) := rfl

end ExpressionTheorems
